import Mathlib

/-!
Verification of the Tool Registry Resolution Engine of the
opensearch-mcp-server-py repository.

The Python modules `src/tools/config.py` and `src/tools/tool_filter.py` are
embedded shallowly below: dictionaries become association lists (with the
Python "later assignment wins" or "first key occurrence" semantics spelled
out at each use), in-place mutation becomes explicit value passing, and
functions that can raise `ValueError` return `Except String`.

Helpers that live in `src/tools/utils.py` and the static catalogue
`src/tools/tools.py` are not part of the sources; where a claim depends on
them they are modelled from the specification, and each such definition is
marked `Modelled from the spec:` in its doc comment.

Regular-expression patterns enter the engine as already-parsed abstract
syntax (`RegularExpression Char` from Mathlib); the concrete pattern syntax
is out of scope, while the matching discipline (anchored at the start,
case-insensitive) is modelled faithfully.
-/

/-- Write-capable HTTP methods, from `generic_api_tool.py`
(`write_methods = ['POST', 'PUT', 'DELETE', 'PATCH']`).  A method outside
this list (`GET`, `HEAD`) is read-only / non-mutating. -/
def write_methods : List String := ["POST", "PUT", "DELETE", "PATCH"]

/-- One property of a tool input schema (an entry of the `properties`
mapping of the JSON-schema dictionary). -/
structure PropInfo where
  ptitle : String := ""
  ptype : String := ""
  pdescription : String := ""
deriving Repr, DecidableEq

/-- A tool input schema: the `input_schema` dictionary.  The `properties`
key may be absent (`none`). -/
structure InputSchema where
  stype : String := "object"
  properties : Option (List (String × PropInfo)) := none
deriving Repr, DecidableEq

/-- A tool descriptor, one value of the registry dictionary.
`http_methods` is the declared capability-method list; `min_version` and
`max_version` are optional semantic-version bound strings. -/
structure ToolInfo where
  display_name : String
  tdescription : String := ""
  input_schema : InputSchema := {}
  http_methods : List String := []
  min_version : Option String := none
  max_version : Option String := none
deriving Repr, DecidableEq

/-- A registry: mapping from canonical tool identifier to descriptor,
embedded as an association list with unique keys in insertion order. -/
abbrev Registry := List (String × ToolInfo)

/-- Environment variables, as an association list. -/
abbrev EnvMap := List (String × String)

/-- Python `str.lower()`, as a map over the character list (`Char.toLower`
folds ASCII letters, which covers every name in the behaviours under
study). -/
def strLower (s : String) : String := ⟨s.data.map Char.toLower⟩

/-- Auxiliary for `splitSep`: structural split of a character list on a
separator character, carrying the current chunk in reverse. -/
def splitSepAux (sep : Char) : List Char → List Char → List (List Char)
  | [], acc => [acc.reverse]
  | x :: t, acc =>
      if x = sep then acc.reverse :: splitSepAux sep t []
      else splitSepAux sep t (x :: acc)

/-- Python `str.split(sep)` for a one-character separator. -/
def splitSep (sep : Char) (s : String) : List String :=
  (splitSepAux sep s.data []).map (fun l => ⟨l⟩)

/-- Python `str.strip()`: drop whitespace from both ends. -/
def strTrim (s : String) : String :=
  ⟨((s.data.dropWhile Char.isWhitespace).reverse.dropWhile Char.isWhitespace).reverse⟩

/-- Python `os.getenv(k, d)`: first binding wins, default when absent. -/
def envGetD (env : EnvMap) (k d : String) : String :=
  match List.find? (fun p => p.1 == k) env with
  | some p => p.2
  | none => d

/-- Python dictionary lookup for an association list built by repeated
assignment: the latest binding for a key wins. -/
def dictLookup (m : List (String × String)) (k : String) : Option String :=
  (List.find? (fun p => p.1 == k) m.reverse).map (fun p => p.2)

/-- A parsed semantic version, `major.minor.patch`. -/
structure Semver where
  major : Nat
  minor : Nat
  patch : Nat
deriving Repr, DecidableEq

/-- Semantic-version comparison (lexicographic on major, minor, patch). -/
def semverLe (a b : Semver) : Bool :=
  a.major < b.major ||
    (a.major == b.major &&
      (a.minor < b.minor || (a.minor == b.minor && a.patch ≤ b.patch)))

/-- Parse a decimal numeral (nonempty, digits only). -/
def parseNat? (s : String) : Option Nat :=
  if !s.data.isEmpty && s.data.all Char.isDigit then
    some (s.data.foldl (fun n c => n * 10 + (c.toNat - 48)) 0)
  else none

/-- Parse a semantic-version string; partial versions such as "2.5" or "3"
are completed with zeros ("2.5.0", "3.0.0").  Anything else is invalid. -/
def parseSemver (s : String) : Option Semver :=
  match splitSep '.' s with
  | [a] => (parseNat? a).map (fun x => ⟨x, 0, 0⟩)
  | [a, b] => do
      let x ← parseNat? a
      let y ← parseNat? b
      pure ⟨x, y, 0⟩
  | [a, b, c] => do
      let x ← parseNat? a
      let y ← parseNat? b
      let z ← parseNat? c
      pure ⟨x, y, z⟩
  | _ => none

/-- Modelled from the spec: `is_tool_compatible` lives in
`src/tools/utils.py`, which is absent from the sources here.  Per spec
section 4.5 and the tests in `tests/tools/test_tool_filters.py`: a null
reference version always passes; otherwise the reference version must lie
within the inclusive `[min_version, max_version]` bounds (each optional,
defaulting to no bound); a bound string that is not a valid semantic
version is a fatal configuration error. -/
def is_tool_compatible (current_version : Option Semver) (tool_info : ToolInfo) :
    Except String Bool :=
  match current_version with
  | none => .ok true
  | some v => do
      let mn ← match tool_info.min_version with
        | none => Except.ok none
        | some s =>
            match parseSemver s with
            | some m => Except.ok (some m)
            | none => Except.error ("Invalid min_version: " ++ s)
      let mx ← match tool_info.max_version with
        | none => Except.ok none
        | some s =>
            match parseSemver s with
            | some m => Except.ok (some m)
            | none => Except.error ("Invalid max_version: " ++ s)
      let lo := match mn with
        | none => true
        | some m => semverLe m v
      let hi := match mx with
        | none => true
        | some m => semverLe v m
      .ok (lo && hi)

/-- Modelled from the spec: `parse_comma_separated` lives in
`src/tools/utils.py`, absent from the sources.  Spec section 6: the
environment-derived filters are "comma-separated tool name lists"; the value
is split on commas, items trimmed, empty items dropped. -/
def parse_comma_separated (value : String) : List String :=
  ((splitSep ',' value).map strTrim).filter (fun s => !s.data.isEmpty)

/-- Modelled from the spec: `validate_tools` lives in `src/tools/utils.py`,
absent from the sources.  Spec section 4.4 step 6: every name is resolved
case-insensitively through the display-name lookup back to a canonical
identifier; a name that does not resolve is a hard validation error naming
the source list it came from.  The canonical identifier is returned
lowercased, matching the `tool_name.lower() in all_enabled_tools`
comparison in `process_tool_filter`. -/
def validate_tools (tool_list : List String) (display_name : List (String × String))
    (source : String) : Except String (List String) :=
  tool_list.mapM fun tool =>
    match dictLookup display_name (strLower tool) with
    | some key => .ok (strLower key)
    | none =>
        .error ("Tool " ++ tool ++ " in " ++ source ++ " is not a valid tool name")

/-- A configuration value from the structured (YAML) source or the flat
(CLI) source: a scalar atom. -/
inductive CfgAtom where
  | str (s : String)
  | num (n : Int)
  | boolean (b : Bool)
deriving Repr, DecidableEq

/-- A configuration value: an atom or a one-level nested mapping (such as
an `args` block keyed by argument name).  Deeper nesting does not occur in
the behaviours under study. -/
inductive CfgVal where
  | atom (a : CfgAtom)
  | vmap (m : List (String × CfgAtom))
deriving Repr, DecidableEq

/-- Python truthiness of a configuration value. -/
def cfgTruthy : CfgVal → Bool
  | .atom (.str s) => !s.isEmpty
  | .atom (.num n) => n != 0
  | .atom (.boolean b) => b
  | .vmap m => !m.isEmpty

/-- Rendering of a configuration value into an error message. -/
def cfgRender : CfgVal → String
  | .atom (.str s) => s
  | .atom (.num n) => toString n
  | .atom (.boolean b) => if b then "True" else "False"
  | .vmap _ => "mapping"

/-- Field aliases table from `config.py`: actual field name to accepted
aliases. -/
def FIELD_ALIASES : List (String × List String) :=
  [("display_name", ["name", "displayName", "display_name", "customName"]),
   ("description", ["description", "desc", "customDescription"])]

/-- `_find_actual_field` from `config.py`: the canonical field a given
alias stands for, or `none`. -/
def find_actual_field (field_alias : String) : Option String :=
  (FIELD_ALIASES.find? (fun p => p.2.contains field_alias)).map (fun p => p.1)

/-- `is_valid_display_name_pattern` from `config.py`: the display name must
match the anchored pattern over `[a-zA-Z0-9_-]+`. -/
def is_valid_display_name_pattern (name : String) : Bool :=
  !name.data.isEmpty && name.data.all (fun c => c.isAlphanum || c = '_' || c = '-')

/-- One step of `_load_config_from_file`: process one alias key of one
tool's block.  State: accumulated canonical entries, whether a display-name
alias and a description alias have already been seen (duplicate canonical
field is a hard error).  An unrecognised key is logged and skipped. -/
def load_config_entry (tool : String)
    (st : List (String × CfgVal) × Bool × Bool) (kv : String × CfgVal) :
    Except String (List (String × CfgVal) × Bool × Bool) :=
  match find_actual_field kv.1 with
  | some f =>
    if f = "display_name" then
      if st.2.1 then
        .error ("Duplicate display name field for tool " ++ tool ++ " in config file")
      else .ok (st.1 ++ [("display_name", kv.2)], true, st.2.2)
    else
      if st.2.2 then
        .error ("Duplicate description field for tool " ++ tool ++ " in config file")
      else .ok (st.1 ++ [("description", kv.2)], st.2.1, true)
  | none => .ok st

/-- `_load_config_from_file` from `config.py`: normalise the parsed `tools`
mapping of the YAML file into canonical per-tool configurations.  Every
tool named in the input gets an entry (possibly empty when all its keys
were unrecognised). -/
def load_config_from_file (config_from_file : List (String × List (String × CfgVal))) :
    Except String (List (String × List (String × CfgVal))) :=
  config_from_file.mapM fun p => do
    let st ← p.2.foldlM (load_config_entry p.1) ([], false, false)
    pure (p.1, st.1)

/-- Word characters, as in the regex class `\w` restricted to ASCII. -/
def isWordChar (c : Char) : Bool :=
  c.isAlphanum || c = '_'

/-- Parse one flat (CLI) override key of the dotted form
`tool.<Identifier>.<aliasField>`.  The match is a prefix match, as with
Python `re.match`: the third component only has to start with one of the
accepted aliases.  Returns the tool identifier and the canonical field, or
`none` for keys of the wrong shape or with an unrecognised field (they are
logged and ignored). -/
def parseCliKey (key : String) : Option (String × String) :=
  if List.isPrefixOf "tool.".data key.data then
    let rest := key.data.drop 5
    let wpart := rest.takeWhile isWordChar
    if wpart.isEmpty then none
    else
      match rest.drop wpart.length with
      | '.' :: fieldPart =>
        if (FIELD_ALIASES.headD ("", [])).2.any
            (fun a => List.isPrefixOf a.data fieldPart) then
          some (⟨wpart⟩, "display_name")
        else if (FIELD_ALIASES.getD 1 ("", [])).2.any
            (fun a => List.isPrefixOf a.data fieldPart) then
          some (⟨wpart⟩, "description")
        else none
      | _ => none
  else none

/-- `_check_cli_duplicate_field_aliases` from `config.py`: two flat keys
that resolve to the same canonical field of the same tool are a hard
error; display-name duplicates are reported first. -/
def check_cli_duplicate_field_aliases (cli_tool_overrides : List (String × String)) :
    Except String Unit :=
  let parsed := cli_tool_overrides.filterMap (fun kv => parseCliKey kv.1)
  let dTools := (parsed.filter (fun tf => tf.2 == "display_name")).map (fun tf => tf.1)
  let cTools := (parsed.filter (fun tf => tf.2 == "description")).map (fun tf => tf.1)
  match dTools.find? (fun t => (dTools.filter (fun u => u == t)).length > 1) with
  | some t =>
      .error ("Duplicate display name field for tool " ++ t ++ " in CLI arguments")
  | none =>
    match cTools.find? (fun t => (cTools.filter (fun u => u == t)).length > 1) with
    | some t =>
        .error ("Duplicate description field for tool " ++ t ++ " in CLI arguments")
    | none => .ok ()

/-- Insert a field value into the nested per-tool configuration mapping,
creating the tool entry on demand (Python `cli_configs[tool][field] = v`). -/
def nestedInsert (acc : List (String × List (String × CfgVal)))
    (tool field : String) (v : CfgVal) : List (String × List (String × CfgVal)) :=
  if acc.any (fun p => p.1 == tool) then
    acc.map (fun p => if p.1 == tool then (p.1, p.2 ++ [(field, v)]) else p)
  else acc ++ [(tool, [(field, v)])]

/-- `_load_config_from_cli` from `config.py`: parse the flat key-value
overrides into canonical per-tool configurations; duplicate canonical
fields are a hard error, malformed or unrecognised keys are ignored. -/
def load_config_from_cli (cli_tool_overrides : List (String × String)) :
    Except String (List (String × List (String × CfgVal))) :=
  if cli_tool_overrides.isEmpty then .ok []
  else do
    check_cli_duplicate_field_aliases cli_tool_overrides
    .ok (cli_tool_overrides.foldl (fun acc kv =>
      match parseCliKey kv.1 with
      | some (t, f) => nestedInsert acc t f (.atom (.str kv.2))
      | none => acc) [])

/-- Lookup of a canonical field inside one tool's normalised configuration
(`custom_config.get(field)`; canonical fields occur at most once). -/
def lookupField (cfg : List (String × CfgVal)) (field : String) : Option CfgVal :=
  (cfg.find? (fun p => p.1 == field)).map (fun p => p.2)

/-- Step 1 of `_validate_config` from `config.py`: every configured tool
must exist in the default registry; configured names are removed from the
set of available names as they are seen. -/
def validate_config_step1 (defaultKeys : List String)
    (config : List (String × List (String × CfgVal))) : Except String (List String) :=
  config.foldlM (fun (avail : List String) p =>
    if avail.contains p.1 then .ok (avail.erase p.1)
    else .error ("Tool " ++ p.1 ++ " is not a valid tool name.")) defaultKeys

/-- Step 2 of `_validate_config`: simulate the display names that would
exist after the renames; a truthy proposed display name that collides with
a name already in the simulated set is an error.  The Python set mixes the
remaining canonical identifiers (strings) with proposed values of any
type, so the simulated set holds configuration values. -/
def validate_config_step2 (avail : List String)
    (config : List (String × List (String × CfgVal))) : Except String (List CfgVal) :=
  config.foldlM (fun (av : List CfgVal) p =>
    match lookupField p.2 "display_name" with
    | some v =>
      if cfgTruthy v then
        if av.contains v then
          .error ("Display name " ++ cfgRender v ++ " conflicts with another tool.")
        else .ok (av ++ [v])
      else .ok av
    | none => .ok av) (avail.map (fun k => CfgVal.atom (.str k)))

/-- A Python for-loop whose body can raise, as a recursion in the `Except`
monad: run the body on each element in order, stopping at the first
error. -/
def exceptIter {α : Type} (f : α → Except String Unit) : List α → Except String Unit
  | [] => .ok ()
  | x :: t => do
    f x
    exceptIter f t

/-- The per-entry check of step 3 of `_validate_config`: a truthy proposed
display name must match the display-name pattern.  A truthy non-string
value makes Python's `re.match` raise a `TypeError`, modelled as an error
as well. -/
def validate_config_check3 (p : String × List (String × CfgVal)) : Except String Unit :=
    match lookupField p.2 "display_name" with
    | some v =>
      if cfgTruthy v then
        match v with
        | .atom (.str s) =>
          if is_valid_display_name_pattern s then .ok ()
          else
            .error ("Display name " ++ s ++ " for tool " ++ p.1 ++
              " does not follow the required pattern.")
        | _ => .error "TypeError: expected string or bytes-like object"
      else .ok ()
    | none => .ok ()

/-- Step 3 of `_validate_config`: run the pattern check over every
configured tool. -/
def validate_config_step3 (config : List (String × List (String × CfgVal))) :
    Except String Unit :=
  exceptIter validate_config_check3 config

/-- `_validate_config` from `config.py`: referential integrity against the
default registry keys, collision freedom of the simulated display-name
set, then pattern conformance, in that order (fail fast). -/
def validate_config (defaultKeys : List String)
    (config : List (String × List (String × CfgVal))) : Except String Unit := do
  let avail ← validate_config_step1 defaultKeys config
  let _ ← validate_config_step2 avail config
  validate_config_step3 config

/-- Application of one validated canonical field to a descriptor
(`custom_registry[tool][field] = value`).  Only string values for the two
canonical fields occur after validation (a truthy non-string display name
fails step 3; falsy non-string values are not exercised by any claim). -/
def applyField (info : ToolInfo) (fv : String × CfgVal) : ToolInfo :=
  match fv.1, fv.2 with
  | "display_name", .atom (.str s) => { info with display_name := s }
  | "description", .atom (.str s) => { info with tdescription := s }
  | _, _ => info

/-- `_apply_validated_configs` from `config.py`: apply each tool's
validated configuration to the registry copy, skipping tool identifiers
that are not present. -/
def apply_validated_configs (custom_registry : Registry)
    (configs : List (String × List (String × CfgVal))) : Registry :=
  configs.foldl (fun (reg : Registry) p =>
    if reg.any (fun kv => kv.1 == p.1) then
      reg.map (fun kv => if kv.1 == p.1 then (kv.1, p.2.foldl applyField kv.2) else kv)
    else reg) custom_registry

/-- `apply_custom_tool_config` from `config.py`.  The caller's registry is
deep-copied (value semantics here), so the returned registry is a new one.
`config_from_file` is the parsed `tools` mapping of the YAML file, empty
when no file is given or the file is missing, unreadable or lacks the
`tools` key (file access is out of scope).  `defaultKeys` stands for the
keys of the process-wide default registry from `tools/tools.py` (absent
from the sources), against which `_validate_config` checks existence; the
final `default_tool_registry.update(...)` global side effect is determined
by the returned registry and is not modelled separately. -/
def apply_custom_tool_config (defaultKeys : List String) (tool_registry : Registry)
    (config_from_file : List (String × List (String × CfgVal)))
    (cli_tool_overrides : List (String × String)) : Except String Registry :=
  if !config_from_file.isEmpty then do
    let fileConfigs ← load_config_from_file config_from_file
    if !fileConfigs.isEmpty then do
      validate_config defaultKeys fileConfigs
      pure (apply_validated_configs tool_registry fileConfigs)
    else pure tool_registry
  else do
    let cliConfigs ← load_config_from_cli cli_tool_overrides
    if !cliConfigs.isEmpty then do
      validate_config defaultKeys cliConfigs
      pure (apply_validated_configs tool_registry cliConfigs)
    else pure tool_registry

/-- Python `re.match(regex, name, re.IGNORECASE)` viewed as a Boolean test:
the pattern is anchored at the start of the name, so the test succeeds
exactly when some prefix of the name belongs to the pattern's language;
case-insensitivity is modelled by lowercasing both the input characters
and the pattern's literal characters. -/
def re_match (regex : RegularExpression Char) (tool_name : String) : Bool :=
  ((tool_name.data.map Char.toLower).inits).any fun p =>
    (regex.map Char.toLower).rmatch p

/-- `process_regex_patterns` from `tool_filter.py`: for each pattern, every
matching tool name is collected (patterns outermost, names innermost). -/
def process_regex_patterns (regex_list : List (RegularExpression Char))
    (tool_names : List String) : List String :=
  regex_list.flatMap fun regex => tool_names.filter fun tool_name => re_match regex tool_name

/-- `set_allow_write_setting` from `tool_filter.py`: store the resolved
setting in the process-wide cell (the cell holds `none` before
initialisation). -/
def set_allow_write_setting (allow_write : Bool) : Option Bool :=
  some allow_write

/-- `get_allow_write_setting` from `tool_filter.py`: return the stored
setting when one was resolved, otherwise fall back to the environment
variable, whose default is `"true"`. -/
def get_allow_write_setting (resolved : Option Bool) (env : EnvMap) : Bool :=
  match resolved with
  | some b => b
  | none => strLower (envGetD env "OPENSEARCH_SETTINGS_ALLOW_WRITE" "true") == "true"

/-- `apply_write_filter` from `tool_filter.py`: remove every tool whose
`http_methods` does not contain `GET`. -/
def apply_write_filter (registry : Registry) : Registry :=
  registry.filter fun kv => kv.2.http_methods.contains "GET"

/-- `process_categories` from `tool_filter.py`: expand category names to
their member tool display names; unknown categories are logged and
skipped. -/
def process_categories (category_list : List String)
    (category_to_tools : List (String × List String)) : List String :=
  category_list.flatMap fun category =>
    match (List.find? (fun p => p.1 == category) category_to_tools.reverse) with
    | some p => p.2
    | none => []

/-- The parsed YAML filter-configuration file, i.e. the value produced by
`load_yaml_config` (which lives in the absent `utils.py`; per spec section
6 it returns the parsed mapping, or null for a missing or unreadable file,
modelled by passing `none`).  `settings` is `none` when the `settings`
block is absent or empty, `some none` when present without an
`allow_write` key, `some (some b)` when it carries one.  Regex patterns
appear already parsed. -/
structure FilterConfig where
  tool_category : List (String × List String) := []
  enabled_tools : List String := []
  disabled_tools : List String := []
  enabled_categories : List String := []
  disabled_categories : List String := []
  enabled_tools_regex : List (RegularExpression Char) := []
  disabled_tools_regex : List (RegularExpression Char) := []
  settings : Option (Option Bool) := none

/-- The fixed list of baseline (core) tool identifiers from
`process_tool_filter`. -/
def core_tools : List String :=
  ["ListIndexTool", "IndexMappingTool", "SearchIndexTool", "GetShardsTool",
   "ClusterHealthTool", "CountTool", "ExplainTool", "MsearchTool",
   "GenericOpenSearchApiTool"]

/-- Registry lookup by canonical identifier (unique keys, first wins). -/
def regLookup (registry : Registry) (k : String) : Option ToolInfo :=
  (List.find? (fun kv => kv.1 == k) registry).map (fun kv => kv.2)

/-- Display names of the core tools present in the registry, in core-list
order (`core_tools_display_name` in `process_tool_filter`). -/
def coreToolsDisplayNames (registry : Registry) : List String :=
  core_tools.filterMap fun tool_name =>
    (regLookup registry tool_name).map (fun info => info.display_name)

/-- The display-name lookup built at the top of `process_tool_filter`:
lowercased display name to canonical identifier; a later tool with the
same lowercased display name wins, as in a Python dict comprehension. -/
def displayNameMap (tool_registry : Registry) : List (String × String) :=
  tool_registry.map fun kv => (strLower kv.2.display_name, kv.1)

/-- The category mapping after the built-in `core_tools` category, the
config-file `tool_category` update and the `tool_categories` JSON update
(in that order; later entries win on lookup). -/
def ptfCategoryMap (tool_registry : Registry) (cfg : Option FilterConfig)
    (tool_categories : Option (List (String × List String))) :
    List (String × List String) :=
  [("core_tools", coreToolsDisplayNames tool_registry)] ++
    (match cfg with | some c => c.tool_category | none => []) ++
    tool_categories.getD []

/-- The enabled-tool name list: from the config file when present, extended
by the comma-separated parameter. -/
def ptfEnabledList (cfg : Option FilterConfig) (enabled_tools : Option String) :
    List String :=
  (match cfg with | some c => c.enabled_tools | none => []) ++
    (match enabled_tools with | some s => parse_comma_separated s | none => [])

/-- The disabled-tool name list, built like the enabled one. -/
def ptfDisabledList (cfg : Option FilterConfig) (disabled_tools : Option String) :
    List String :=
  (match cfg with | some c => c.disabled_tools | none => []) ++
    (match disabled_tools with | some s => parse_comma_separated s | none => [])

/-- The enabled-category list: seeded with the built-in `core_tools`
category, extended by the config file and the parameter. -/
def ptfEnabledCategories (cfg : Option FilterConfig)
    (enabled_categories : Option String) : List String :=
  ["core_tools"] ++ (match cfg with | some c => c.enabled_categories | none => []) ++
    (match enabled_categories with | some s => parse_comma_separated s | none => [])

/-- The disabled-category list: from the config file, extended by the
parameter. -/
def ptfDisabledCategories (cfg : Option FilterConfig)
    (disabled_categories : Option String) : List String :=
  (match cfg with | some c => c.disabled_categories | none => []) ++
    (match disabled_categories with | some s => parse_comma_separated s | none => [])

/-- The enabled regex-pattern list: from the config file, extended by the
parameter (patterns already parsed). -/
def ptfEnabledRegex (cfg : Option FilterConfig)
    (enabled_tools_regex : Option (List (RegularExpression Char))) :
    List (RegularExpression Char) :=
  (match cfg with | some c => c.enabled_tools_regex | none => []) ++
    enabled_tools_regex.getD []

/-- The disabled regex-pattern list, built like the enabled one. -/
def ptfDisabledRegex (cfg : Option FilterConfig)
    (disabled_tools_regex : Option (List (RegularExpression Char))) :
    List (RegularExpression Char) :=
  (match cfg with | some c => c.disabled_tools_regex | none => []) ++
    disabled_tools_regex.getD []

/-- The final `allow_write` value seen by the gate: a truthy `settings`
block of the config file overrides the parameter, defaulting to `True`
when the block lacks the key; otherwise the parameter stands (where both
Python `None` and `False` fail the `if not allow_write:` test exactly when
the value here is not `some true`). -/
def ptfAllowWrite (cfg : Option FilterConfig) (allow_write : Option Bool) :
    Option Bool :=
  match cfg with
  | some c =>
    match c.settings with
    | some s => some (s.getD true)
    | none => allow_write
  | none => allow_write

/-- The registry after the write gate: `apply_write_filter` runs exactly
when the final `allow_write` value is not truthy. -/
def ptfGated (tool_registry : Registry) (aw : Option Bool) : Registry :=
  if aw = some true then tool_registry else apply_write_filter tool_registry

/-- The current display names handed to the regex expansion, computed from
the registry after the write gate. -/
def ptfNames (gated : Registry) : List String :=
  gated.map fun kv => kv.2.display_name

/-- Collect and validate the three sources of one side (explicit names,
category-derived names, regex-derived names), in source order; the
resulting list is read as a set (only membership is used). -/
def collect3 (l1 l2 l3 : List String) (display_name : List (String × String))
    (s1 s2 s3 : String) : Except String (List String) := do
  let a ← validate_tools l1 display_name s1
  let b ← validate_tools l2 display_name s2
  let c ← validate_tools l3 display_name s3
  pure (a ++ b ++ c)

/-- The disabled-set application step of `process_tool_filter`: a no-op
when all three disabled sources are empty; otherwise validation of the
disabled names (an error is caught by the surrounding handler, leaving the
registry as it stands) and removal of every tool whose lowercased
identifier is in the resolved set. -/
def ptfDisabledStep (dList dFromCats dFromRe : List String)
    (display_name : List (String × String)) (registry : Registry) : Registry :=
  if dList.isEmpty && dFromCats.isEmpty && dFromRe.isEmpty then registry
  else
    match collect3 dList dFromCats dFromRe display_name
        "disabled_tools" "disabled_categories" "disabled_tools_regex" with
    | .error _ => registry
    | .ok ds => registry.filter fun kv => !(ds.contains (strLower kv.1))

/-- The enabled names contributed by category expansion
(`enabled_tools_from_categories` in `process_tool_filter`). -/
def ptfEnabledFromCategories (tool_registry : Registry) (cfg : Option FilterConfig)
    (tool_categories : Option (List (String × List String)))
    (enabled_categories : Option String) : List String :=
  process_categories (ptfEnabledCategories cfg enabled_categories)
    (ptfCategoryMap tool_registry cfg tool_categories)

/-- The disabled names contributed by category expansion
(`disabled_tools_from_categories` in `process_tool_filter`). -/
def ptfDisabledFromCategories (tool_registry : Registry) (cfg : Option FilterConfig)
    (tool_categories : Option (List (String × List String)))
    (disabled_categories : Option String) : List String :=
  process_categories (ptfDisabledCategories cfg disabled_categories)
    (ptfCategoryMap tool_registry cfg tool_categories)

/-- The enabled names contributed by regex expansion
(`enabled_tools_from_regex` in `process_tool_filter`): the patterns run
over the display names of the registry as it stands after the write
gate. -/
def ptfEnabledFromRegex (tool_registry : Registry) (cfg : Option FilterConfig)
    (enabled_tools_regex : Option (List (RegularExpression Char)))
    (allow_write : Option Bool) : List String :=
  process_regex_patterns (ptfEnabledRegex cfg enabled_tools_regex)
    (ptfNames (ptfGated tool_registry (ptfAllowWrite cfg allow_write)))

/-- The disabled names contributed by regex expansion
(`disabled_tools_from_regex` in `process_tool_filter`). -/
def ptfDisabledFromRegex (tool_registry : Registry) (cfg : Option FilterConfig)
    (disabled_tools_regex : Option (List (RegularExpression Char)))
    (allow_write : Option Bool) : List String :=
  process_regex_patterns (ptfDisabledRegex cfg disabled_tools_regex)
    (ptfNames (ptfGated tool_registry (ptfAllowWrite cfg allow_write)))

/-- `process_tool_filter` from `tool_filter.py`.  The Python function
mutates `tool_registry` in place and wraps its whole body in a handler
that logs any exception; the embedding returns the registry state at the
point the function returns, which on a validation error is the state the
in-place mutations had reached when the exception was raised.
`filter_config` is the parsed YAML file (`load_yaml_config(filter_path)`),
`tool_categories` the parsed category JSON; an absent or empty string
parameter is `none` (both are falsy in Python). -/
def process_tool_filter (enabled_tools disabled_tools : Option String)
    (tool_categories : Option (List (String × List String)))
    (enabled_categories disabled_categories : Option String)
    (enabled_tools_regex disabled_tools_regex : Option (List (RegularExpression Char)))
    (allow_write : Option Bool) (filter_config : Option FilterConfig)
    (tool_registry : Registry) : Registry :=
  let dmap := displayNameMap tool_registry
  let eList := ptfEnabledList filter_config enabled_tools
  let dList := ptfDisabledList filter_config disabled_tools
  let gated := ptfGated tool_registry (ptfAllowWrite filter_config allow_write)
  let eFromCats :=
    ptfEnabledFromCategories tool_registry filter_config tool_categories enabled_categories
  let dFromCats :=
    ptfDisabledFromCategories tool_registry filter_config tool_categories disabled_categories
  let eFromRe :=
    ptfEnabledFromRegex tool_registry filter_config enabled_tools_regex allow_write
  let dFromRe :=
    ptfDisabledFromRegex tool_registry filter_config disabled_tools_regex allow_write
  if eList.isEmpty && eFromCats.isEmpty && eFromRe.isEmpty then
    ptfDisabledStep dList dFromCats dFromRe dmap gated
  else
    match collect3 eList eFromCats eFromRe dmap
        "enabled_tools" "enabled_categories" "enabled_tools_regex" with
    | .error _ => gated
    | .ok es =>
      let restricted := gated.filter fun kv => es.contains (strLower kv.1)
      ptfDisabledStep dList dFromCats dFromRe dmap restricted

/-- The base-argument field names stripped from exposed schemas
(`baseToolArgs.model_fields.keys()` from `tool_params.py`). -/
def base_fields : List String := ["opensearch_cluster_name"]

/-- The schema-properties stripping of `get_tools`: pop every base field
from the `properties` mapping. -/
def stripBaseFields (props : List (String × PropInfo)) : List (String × PropInfo) :=
  props.filter fun p => !(base_fields.contains p.1)

/-- A descriptor after the single-mode schema stripping.  Python performs
`info.copy()` and `schema.copy()`, both shallow, then pops the base fields
from `schema['properties']`; because the `properties` dictionary is shared
between the copy and the original, the original descriptor's nested
properties end up stripped as well, so one stripped value describes both
the exposed entry and the caller's entry. -/
def stripInfo (info : ToolInfo) : ToolInfo :=
  { info with input_schema :=
      { info.input_schema with
        properties := info.input_schema.properties.map stripBaseFields } }

/-- Python dict insertion for the exposed mapping keyed by display name:
an existing key is overwritten in place, a new key is appended. -/
def dictInsert (m : Registry) (k : String) (v : ToolInfo) : Registry :=
  if m.any (fun kv => kv.1 == k) then
    m.map (fun kv => if kv.1 == k then (k, v) else kv)
  else m ++ [(k, v)]

/-- The per-tool loop of `get_tools` in single mode: skip incompatible
tools (a malformed version bound raises out of the call), strip the base
fields from the schema of each compatible tool (mutating, through the
shared `properties` dictionary, the caller's descriptor as well), and
record the exposed entry under the tool's display name.  Returns the
exposed mapping together with the final state of the caller's registry. -/
def getToolsLoop (version : Option Semver) (items : List (String × ToolInfo)) :
    Except String (Registry × Registry) :=
  items.foldlM (fun (acc : Registry × Registry) kv => do
    let compat ← is_tool_compatible version kv.2
    if compat then
      let stripped := stripInfo kv.2
      pure (dictInsert acc.1 kv.2.display_name stripped, acc.2 ++ [(kv.1, stripped)])
    else
      pure (acc.1, acc.2 ++ [kv])) (([], []) : Registry × Registry)

/-- `get_tools` from `tool_filter.py`.  In `multi` mode the registry is
returned as-is.  In `single` mode the environment-derived filter
parameters are passed to `process_tool_filter` only when no config-file
path is given; then the per-tool compatibility-and-stripping loop runs.
`version` is the result of `get_opensearch_version` (null on serverless),
`cfg` the parsed YAML filter file, `env_tool_categories` the parsed
category JSON from the environment.  The resolved allow-write setting is
also published to the process-wide cell (see `set_allow_write_setting`);
that side effect does not influence the returned value and is not part of
this function's result.  The result pairs the exposed mapping (keyed by
display name) with the final state of the caller's registry. -/
def get_tools (tool_registry : Registry) (mode : String) (version : Option Semver)
    (env : EnvMap) (cfg : Option FilterConfig)
    (env_tool_categories : Option (List (String × List String)))
    (config_file_path : String) : Except String (Registry × Registry) :=
  if mode = "multi" then .ok (tool_registry, tool_registry)
  else
    let optStr := fun (s : String) => if s.data.isEmpty then none else some s
    let filtered :=
      if config_file_path.data.isEmpty then
        process_tool_filter
          (optStr (envGetD env "OPENSEARCH_ENABLED_TOOLS" ""))
          (optStr (envGetD env "OPENSEARCH_DISABLED_TOOLS" ""))
          env_tool_categories
          (optStr (envGetD env "OPENSEARCH_ENABLED_CATEGORIES" ""))
          (optStr (envGetD env "OPENSEARCH_DISABLED_CATEGORIES" ""))
          none none
          (some (strLower (envGetD env "OPENSEARCH_SETTINGS_ALLOW_WRITE" "true") == "true"))
          none tool_registry
      else
        process_tool_filter none none none none none none none none cfg tool_registry
    getToolsLoop version filtered

/-- Fixture for claim C2: a read-only tool. -/
def c2GetInfo : ToolInfo :=
  { display_name := "ToolA", http_methods := ["GET"] }

/-- Fixture for claim C2: a write-only tool, removed by the write gate. -/
def c2PutInfo : ToolInfo :=
  { display_name := "PutOnly", http_methods := ["PUT"] }

/-- Fixture for claim C2: a registry with one read-only and one write-only
tool. -/
def c2Registry : Registry := [("ToolA", c2GetInfo), ("PutOnly", c2PutInfo)]

/-- Fixture for claim C3: a tool whose display name violates the
display-name pattern. -/
def c3OddInfo : ToolInfo :=
  { display_name := "Bad Name!", http_methods := ["GET"],
    input_schema := { properties := some [] } }

/-- Fixture for claim C3: a registry carrying the odd display name. -/
def c3Registry : Registry := [("OddTool", c3OddInfo)]

/-- Fixture for claim C5: a tool whose only capability method is the
non-mutating `HEAD`. -/
def c5HeadInfo : ToolInfo :=
  { display_name := "HeadTool", http_methods := ["HEAD"] }

/-- Fixture for claim C5: a tool whose only capability method is `PUT`. -/
def c5PutOnlyInfo : ToolInfo :=
  { display_name := "PutOnlyTool", http_methods := ["PUT"] }

/-- Fixture for claim C4: the `ListIndexTool` descriptor of the test
registry, with an `index` argument in its input schema. -/
def c4ListIndexInfo : ToolInfo :=
  { display_name := "ListIndexTool",
    tdescription := "Original description for ListIndexTool",
    input_schema :=
      { properties := some [("index", { ptitle := "Index", ptype := "string" })] } }

/-- Fixture for claim C4: the registry holding just `ListIndexTool`. -/
def c4Registry : Registry := [("ListIndexTool", c4ListIndexInfo)]

/-- Fixture for claim C4: an override set whose `args` block references an
argument absent from the tool's declared input schema. -/
def c4ArgsUnknown : List (String × List (String × CfgVal)) :=
  [("ListIndexTool", [("args", .vmap [("nonexistent", .str "Should fail")])])]

/-- Fixture for claim C4: an override set whose `args` entry carries a
non-string value. -/
def c4ArgsNonString : List (String × List (String × CfgVal)) :=
  [("ListIndexTool", [("args", .vmap [("index", .num 123)])])]

/-- Fixture for claim C9: the connection-selector property. -/
def c9PropCluster : PropInfo := { ptype := "string" }

/-- Fixture for claim C9: an ordinary query property. -/
def c9PropQuery : PropInfo := { ptype := "object" }

/-- Fixture for claim C9: a core tool whose schema carries the base
connection-selector field next to an ordinary field. -/
def c9SearchInfo : ToolInfo :=
  { display_name := "SearchIndexTool", tdescription := "Search an index",
    input_schema :=
      { properties := some [("opensearch_cluster_name", c9PropCluster),
                            ("query", c9PropQuery)] },
    http_methods := ["GET", "POST"] }

/-- Fixture for claim C9: the caller's registry before the call. -/
def c9Registry : Registry := [("SearchIndexTool", c9SearchInfo)]

/-- Fixture for claim C9: the same descriptor after the base field has been
popped from the shared `properties` mapping. -/
def c9Stripped : ToolInfo :=
  { display_name := "SearchIndexTool", tdescription := "Search an index",
    input_schema := { properties := some [("query", c9PropQuery)] },
    http_methods := ["GET", "POST"] }

/-- Fixture for claim C7: a read-only tool kept by the enabled set. -/
def c7InfoX : ToolInfo :=
  { display_name := "ToolX", http_methods := ["GET"] }

/-- Fixture for claim C7: a read-only tool named in both the enabled and
the disabled set. -/
def c7InfoY : ToolInfo :=
  { display_name := "ToolY", http_methods := ["GET"] }

/-- Fixture for claim C7: a two-tool registry. -/
def c7Registry : Registry := [("ToolX", c7InfoX), ("ToolY", c7InfoY)]

deriving instance DecidableEq for Except

/-- An `exceptIter` run that succeeds ran its body successfully on every
element. -/
theorem exceptIter_ok_of_mem {α : Type} {l : List α} {f : α → Except String Unit}
    (h : exceptIter f l = .ok ()) : ∀ x ∈ l, f x = .ok () := by
  induction l with
  | nil => intro x hx; cases hx
  | cons a t ih =>
    intro x hx
    rw [exceptIter] at h
    cases hfa : f a with
    | error e => rw [hfa] at h; cases h
    | ok u =>
      rw [hfa] at h
      simp only [bind, Except.bind] at h
      rcases List.mem_cons.mp hx with hx1 | hx1
      · subst hx1; cases u; exact hfa
      · exact ih h x hx1

/-- A failing `validate_tools` call reports an unresolvable name from its
input list together with the source list it came from. -/
theorem validate_tools_error_shape {l : List String} {m : List (String × String)}
    {src msg : String} (h : validate_tools l m src = .error msg) :
    ∃ t ∈ l, msg = "Tool " ++ t ++ " in " ++ src ++ " is not a valid tool name" := by
  induction l with
  | nil => cases h
  | cons a t ih =>
    rw [validate_tools] at h ih
    rw [List.mapM_cons] at h
    cases hla : dictLookup m (strLower a) with
    | some k =>
      simp only [hla, bind, Except.bind] at h
      cases hrest : t.mapM (fun tool =>
          match dictLookup m (strLower tool) with
          | some key => Except.ok (strLower key)
          | none =>
              Except.error
                ("Tool " ++ tool ++ " in " ++ src ++ " is not a valid tool name")) with
      | error e =>
        rw [hrest] at h
        simp only [Except.bind] at h
        cases h
        obtain ⟨u, hu, hmsg⟩ := ih hrest
        exact ⟨u, List.mem_cons_of_mem a hu, hmsg⟩
      | ok ys =>
        rw [hrest] at h
        simp only [Except.bind, pure, Except.pure] at h
        cases h
    | none =>
      simp only [hla, bind, Except.bind] at h
      cases h
      exact ⟨a, List.mem_cons_self a t, rfl⟩

/-- A failing `collect3` call reports an unresolvable name and the source
list (one of the three supplied source labels) it came from. -/
theorem collect3_error_shape {l1 l2 l3 : List String} {m : List (String × String)}
    {s1 s2 s3 msg : String}
    (h : collect3 l1 l2 l3 m s1 s2 s3 = .error msg) :
    ∃ t src, src ∈ [s1, s2, s3] ∧
      msg = "Tool " ++ t ++ " in " ++ src ++ " is not a valid tool name" := by
  rw [collect3] at h
  cases h1 : validate_tools l1 m s1 with
  | error e =>
    rw [h1] at h
    simp only [bind, Except.bind] at h
    cases h
    obtain ⟨t, _, hmsg⟩ := validate_tools_error_shape h1
    exact ⟨t, s1, by simp, hmsg⟩
  | ok a =>
    rw [h1] at h
    simp only [bind, Except.bind] at h
    cases h2 : validate_tools l2 m s2 with
    | error e =>
      rw [h2] at h
      simp only [Except.bind] at h
      cases h
      obtain ⟨t, _, hmsg⟩ := validate_tools_error_shape h2
      exact ⟨t, s2, by simp, hmsg⟩
    | ok b =>
      rw [h2] at h
      simp only [Except.bind] at h
      cases h3 : validate_tools l3 m s3 with
      | error e =>
        rw [h3] at h
        simp only [Except.bind] at h
        cases h
        obtain ⟨t, _, hmsg⟩ := validate_tools_error_shape h3
        exact ⟨t, s3, by simp, hmsg⟩
      | ok c =>
        rw [h3] at h
        simp only [Except.bind, pure, Except.pure] at h
        cases h

/-- A failing `collect3` call has at least one non-empty source list
(three empty lists validate to the empty set without error). -/
theorem collect3_error_nonempty {l1 l2 l3 : List String} {m : List (String × String)}
    {s1 s2 s3 msg : String}
    (h : collect3 l1 l2 l3 m s1 s2 s3 = .error msg) :
    (l1.isEmpty && l2.isEmpty && l3.isEmpty) = false := by
  cases l1 with
  | cons a t => rfl
  | nil =>
    cases l2 with
    | cons a t => rfl
    | nil =>
      cases l3 with
      | cons a t => rfl
      | nil =>
        rw [show collect3 ([] : List String) [] [] m s1 s2 s3 = .ok [] from rfl] at h
        cases h

/-- When the disabled-name validation fails, the disabled-set step leaves
the registry exactly as it received it (the exception is caught by the
surrounding handler before any disabled removal happens). -/
theorem ptfDisabledStep_error {dList dFromCats dFromRe : List String}
    {dmap : List (String × String)} {reg : Registry} {msg : String}
    (h : collect3 dList dFromCats dFromRe dmap
        "disabled_tools" "disabled_categories" "disabled_tools_regex" = .error msg) :
    ptfDisabledStep dList dFromCats dFromRe dmap reg = reg := by
  simp only [ptfDisabledStep, collect3_error_nonempty h, Bool.false_eq_true, if_false, h]

/-- Claim C1: precedence law — whenever the structured configuration
source (the parsed `tools` mapping of the YAML file) is supplied and
non-empty, the result of `apply_custom_tool_config` is identical for any
two values of the flat key-value (CLI) override mapping: the flat source
is neither merged nor used as a fallback. -/
theorem apply_custom_tool_config_flat_source_noninterference
    (defaultKeys : List String) (reg : Registry)
    (config_from_file : List (String × List (String × CfgVal)))
    (cli1 cli2 : List (String × String))
    (h : config_from_file ≠ []) :
    apply_custom_tool_config defaultKeys reg config_from_file cli1 =
      apply_custom_tool_config defaultKeys reg config_from_file cli2 := by
  have he : config_from_file.isEmpty = false := by
    cases config_from_file with
    | nil => exact absurd rfl h
    | cons a t => rfl
  simp [apply_custom_tool_config, he]

/-- Claim C1 witness: with a non-empty structured source, two conflicting
flat override mappings produce the same resolved registry. -/
theorem apply_custom_tool_config_flat_source_noninterference_witness :
    ([("ToolA", [("display_name", CfgVal.atom (.str "FileName"))])] :
        List (String × List (String × CfgVal))) ≠ [] ∧
    apply_custom_tool_config ["ToolA"] [("ToolA", { display_name := "ToolA" })]
        [("ToolA", [("display_name", CfgVal.atom (.str "FileName"))])]
        [("tool.ToolA.name", "CliOne")] =
      apply_custom_tool_config ["ToolA"] [("ToolA", { display_name := "ToolA" })]
        [("ToolA", [("display_name", CfgVal.atom (.str "FileName"))])]
        [("tool.ToolA.name", "CliTwo")] :=
  ⟨by decide,
   apply_custom_tool_config_flat_source_noninterference _ _ _ _ _ (by decide)⟩

/-- Claim C10: reading the write-capability flag is total; with no stored
value it returns the environment-derived default (true when the variable
is unset); once a boolean has been stored, every call returns exactly that
value and the environment has no effect. -/
theorem allow_write_setting_spec :
    (∀ (b : Bool) (env : EnvMap),
        get_allow_write_setting (set_allow_write_setting b) env = b) ∧
    (∀ env : EnvMap,
        List.find? (fun p => p.1 == "OPENSEARCH_SETTINGS_ALLOW_WRITE") env = none →
        get_allow_write_setting none env = true) ∧
    get_allow_write_setting none [] = true ∧
    get_allow_write_setting none [("OPENSEARCH_SETTINGS_ALLOW_WRITE", "false")] = false := by
  refine ⟨fun b env => rfl, fun env h => ?_, by decide, by decide⟩
  simp only [get_allow_write_setting, envGetD, h]
  decide

/-- Claim C10 witness: a stored `false` wins over a `"true"` environment
variable, and an environment without the variable yields the default. -/
theorem allow_write_setting_spec_witness :
    get_allow_write_setting (set_allow_write_setting false)
        [("OPENSEARCH_SETTINGS_ALLOW_WRITE", "true")] = false ∧
    get_allow_write_setting none [("OTHER_VAR", "x")] = true :=
  ⟨allow_write_setting_spec.1 false _, allow_write_setting_spec.2.1 _ (by decide)⟩

/-- Claim C5 counterexample: a tool whose only declared method is `HEAD`
carries a non-mutating method under the repository's own classification
(`write_methods` in `generic_api_tool.py`), yet the write gate removes it,
because `apply_write_filter` tests for `GET` specifically rather than for
"some read-only method". -/
theorem apply_write_filter_removes_head_only_tool :
    apply_write_filter [("HeadTool", c5HeadInfo)] = [] ∧
    c5HeadInfo.http_methods = ["HEAD"] ∧
    write_methods.contains "HEAD" = false := by decide

/-- Claim C5 (amended): when the write gate is applied, the filter keeps
exactly the tools whose declared method list contains `GET`; in
particular a tool whose method set is only `PUT` is removed entirely. -/
theorem apply_write_filter_keeps_exactly_get_tools :
    (∀ (reg : Registry) (kv : String × ToolInfo),
        kv ∈ apply_write_filter reg ↔
          kv ∈ reg ∧ kv.2.http_methods.contains "GET" = true) ∧
    apply_write_filter [("PutOnlyTool", c5PutOnlyInfo)] = [] := by
  constructor
  · intro reg kv
    simp [apply_write_filter, List.mem_filter]
  · decide

/-- Claim C4 (code-bug evidence): an override set carrying a nested `args`
block — whether it references an argument absent from the tool's declared
input schema or carries a non-string value — is silently ignored by
`apply_custom_tool_config` (the `args` key resolves to no canonical field
and is skipped with a warning), returning the registry unchanged instead
of failing with the validation error that the specification and the
repository's own tests (`test_yaml_args_invalid_argument_raises`,
`test_yaml_args_description_must_be_string`) require. -/
theorem apply_custom_tool_config_ignores_args_block :
    apply_custom_tool_config ["ListIndexTool", "SearchIndexTool"] c4Registry
        c4ArgsUnknown [] = .ok c4Registry ∧
    apply_custom_tool_config ["ListIndexTool", "SearchIndexTool"] c4Registry
        c4ArgsNonString [] = .ok c4Registry := by decide

/-- Claim C9 (code-bug evidence): in single mode, `get_tools` strips the
base connection-selector field not only from the exposed copy but — via
the shallow `schema.copy()` that shares the nested `properties` dictionary
— from the caller's original descriptor as well: after the call the
caller's registry carries the stripped schema, so the original no longer
compares equal to its pre-call value, contradicting the claim (and the
code's own "Create a copy to avoid modifying the original tool info"
comment). -/
theorem get_tools_single_mode_mutates_caller_schema :
    get_tools c9Registry "single" none [] none none "" =
      .ok ([("SearchIndexTool", c9Stripped)], [("SearchIndexTool", c9Stripped)]) ∧
    c9Stripped ≠ c9SearchInfo ∧
    (c9SearchInfo.input_schema.properties.getD []).map Prod.fst =
      ["opensearch_cluster_name", "query"] ∧
    (c9Stripped.input_schema.properties.getD []).map Prod.fst = ["query"] := by decide

/-- Claim C3 counterexample: `get_tools` performs no display-name
validation, so a single-mode resolution over a registry whose descriptor
carries the display name "Bad Name!" exposes that name even though it
violates the pattern `^[A-Za-z0-9_-]+$`. -/
theorem get_tools_exposes_invalid_display_name :
    get_tools c3Registry "single" none [] none none "" =
      .ok ([("Bad Name!", c3OddInfo)], [("OddTool", c3OddInfo)]) ∧
    is_valid_display_name_pattern "Bad Name!" = false := by decide

/-- Claim C8: the compatibility evaluator returns true exactly when the
reference version lies within the inclusive `[minimum, maximum]`
semantic-version bounds (partial bound strings such as "2.5" parsed as
"2.5.0"; each bound optional and unconstrained when absent, including the
one-sided-bound configurations), always returns true for a null reference
version, and fails on a bound string that is not a valid semantic version
in every configuration: invalid minimum (whatever the maximum), and
invalid maximum with the minimum absent or valid. -/
theorem is_tool_compatible_spec :
    (∀ info : ToolInfo, is_tool_compatible none info = .ok true) ∧
    (∀ (v : Semver) (info : ToolInfo),
        info.min_version = none → info.max_version = none →
        is_tool_compatible (some v) info = .ok true) ∧
    (∀ (v : Semver) (info : ToolInfo) (mns : String) (mn : Semver),
        info.min_version = some mns → info.max_version = none →
        parseSemver mns = some mn →
        is_tool_compatible (some v) info = .ok (semverLe mn v)) ∧
    (∀ (v : Semver) (info : ToolInfo) (mxs : String) (mx : Semver),
        info.min_version = none → info.max_version = some mxs →
        parseSemver mxs = some mx →
        is_tool_compatible (some v) info = .ok (semverLe v mx)) ∧
    (∀ (v : Semver) (info : ToolInfo) (mns mxs : String) (mn mx : Semver),
        info.min_version = some mns → info.max_version = some mxs →
        parseSemver mns = some mn → parseSemver mxs = some mx →
        is_tool_compatible (some v) info = .ok (semverLe mn v && semverLe v mx)) ∧
    (∀ (v : Semver) (info : ToolInfo) (s : String),
        info.min_version = some s → parseSemver s = none →
        is_tool_compatible (some v) info = .error ("Invalid min_version: " ++ s)) ∧
    (∀ (v : Semver) (info : ToolInfo) (mns s : String) (mn : Semver),
        info.min_version = some mns → parseSemver mns = some mn →
        info.max_version = some s → parseSemver s = none →
        is_tool_compatible (some v) info = .error ("Invalid max_version: " ++ s)) ∧
    (∀ (v : Semver) (info : ToolInfo) (s : String),
        info.min_version = none → info.max_version = some s → parseSemver s = none →
        is_tool_compatible (some v) info = .error ("Invalid max_version: " ++ s)) ∧
    parseSemver "2.5" = some ⟨2, 5, 0⟩ ∧ parseSemver "3" = some ⟨3, 0, 0⟩ := by
  refine ⟨fun info => rfl, ?_, ?_, ?_, ?_, ?_, ?_, ?_, by decide, by decide⟩
  · intro v info h1 h2
    simp [is_tool_compatible, h1, h2, bind, Except.bind]
  · intro v info mns mn h1 h2 h3
    simp [is_tool_compatible, h1, h2, h3, bind, Except.bind]
  · intro v info mxs mx h1 h2 h3
    simp [is_tool_compatible, h1, h2, h3, bind, Except.bind]
  · intro v info mns mxs mn mx h1 h2 h3 h4
    simp [is_tool_compatible, h1, h2, h3, h4, bind, Except.bind]
  · intro v info s h1 h2
    simp [is_tool_compatible, h1, h2, bind, Except.bind]
  · intro v info mns s mn h1 h2 h3 h4
    simp [is_tool_compatible, h1, h2, h3, h4, bind, Except.bind]
  · intro v info s h1 h2 h3
    simp [is_tool_compatible, h1, h2, h3, bind, Except.bind]

/-- Claim C8 witness: the evaluator at concrete inputs — a partial-bound
range containing 2.5.1, the spec's min-only exclusion (reference 2.5.0
against minimum 3.0.0 alone), an invalid bound string, a valid minimum
paired with an invalid maximum, and a null version against declared
bounds. -/
theorem is_tool_compatible_spec_witness :
    is_tool_compatible (some ⟨2, 5, 1⟩)
        { display_name := "T", min_version := some "2.5", max_version := some "3" } =
      .ok (semverLe ⟨2, 5, 0⟩ ⟨2, 5, 1⟩ && semverLe ⟨2, 5, 1⟩ ⟨3, 0, 0⟩) ∧
    is_tool_compatible (some ⟨2, 5, 0⟩)
        { display_name := "T", min_version := some "3.0.0" } =
      .ok (semverLe ⟨3, 0, 0⟩ ⟨2, 5, 0⟩) ∧
    semverLe ⟨3, 0, 0⟩ ⟨2, 5, 0⟩ = false ∧
    is_tool_compatible (some ⟨1, 0, 0⟩)
        { display_name := "T", min_version := some "not_a_version" } =
      .error ("Invalid min_version: " ++ "not_a_version") ∧
    is_tool_compatible (some ⟨1, 0, 0⟩)
        { display_name := "T", min_version := some "1.0.0",
          max_version := some "not_a_version" } =
      .error ("Invalid max_version: " ++ "not_a_version") ∧
    is_tool_compatible none
        { display_name := "T", min_version := some "9.9.9" } = .ok true :=
  ⟨is_tool_compatible_spec.2.2.2.2.1 _ _ _ _ _ _ rfl rfl (by decide) (by decide),
   is_tool_compatible_spec.2.2.1 _ _ _ _ rfl rfl (by decide),
   by decide,
   is_tool_compatible_spec.2.2.2.2.2.1 _ _ _ rfl (by decide),
   is_tool_compatible_spec.2.2.2.2.2.2.1 ⟨1, 0, 0⟩ _ "1.0.0" "not_a_version" ⟨1, 0, 0⟩
     rfl (by decide) rfl (by decide),
   is_tool_compatible_spec.1 _⟩

/-- Claim C3 (amended): `get_tools` itself performs no display-name
validation, so the exposed registry carries whatever display names the
input registry has (see the counterexample); what does hold is that every
truthy display name accepted by the override validator `_validate_config`
is a string matching the pattern `^[A-Za-z0-9_-]+$`. -/
theorem validate_config_accepted_names_match_pattern
    (defaultKeys : List String) (config : List (String × List (String × CfgVal)))
    (h : validate_config defaultKeys config = .ok ())
    (t : String) (fs : List (String × CfgVal)) (v : CfgVal)
    (hmem : (t, fs) ∈ config) (hdn : lookupField fs "display_name" = some v)
    (htr : cfgTruthy v = true) :
    ∃ s, v = .atom (.str s) ∧ is_valid_display_name_pattern s = true := by
  have h3 : validate_config_step3 config = .ok () := by
    rw [validate_config] at h
    cases h1 : validate_config_step1 defaultKeys config with
    | error e => rw [h1] at h; simp [bind, Except.bind] at h
    | ok avail =>
      rw [h1] at h
      simp only [bind, Except.bind] at h
      cases h2 : validate_config_step2 avail config with
      | error e => rw [h2] at h; simp [Except.bind] at h
      | ok av => rw [h2] at h; simpa using h
  have hc := exceptIter_ok_of_mem h3 (t, fs) hmem
  simp only [validate_config_check3, hdn, htr, if_true] at hc
  cases v with
  | atom a =>
    cases a with
    | str s =>
      refine ⟨s, rfl, ?_⟩
      by_cases hp : is_valid_display_name_pattern s = true
      · exact hp
      · simp only [hp] at hc
        simp only [Bool.false_eq_true, if_false] at hc
        cases hc
    | num n => cases hc
    | boolean b => cases hc
  | vmap m => cases hc

/-- Claim C3 (amended) witness: a validated override carrying the display
name "Valid_Name" yields a pattern-conforming string. -/
theorem validate_config_accepted_names_match_pattern_witness :
    validate_config ["ListIndexTool", "SearchIndexTool"]
        [("ListIndexTool", [("display_name", CfgVal.atom (.str "Valid_Name"))])] =
      .ok () ∧
    ∃ s, CfgVal.atom (.str "Valid_Name") = CfgVal.atom (.str s) ∧
      is_valid_display_name_pattern s = true :=
  ⟨by decide,
   validate_config_accepted_names_match_pattern ["ListIndexTool", "SearchIndexTool"]
     [("ListIndexTool", [("display_name", CfgVal.atom (.str "Valid_Name"))])]
     (by decide) "ListIndexTool"
     [("display_name", CfgVal.atom (.str "Valid_Name"))]
     (CfgVal.atom (.str "Valid_Name")) (by decide) (by decide) (by decide)⟩

/-- Claim C2 counterexample: with an unresolvable name in the enabled
list ("Nonexistent" resolves to no display name), `process_tool_filter`
returns normally — the validation error is swallowed by the surrounding
handler — and the registry it returns has already lost the write-only
tool to the write gate: the failure is neither observable to the caller
nor raised before partial registry mutation. -/
theorem process_tool_filter_swallows_validation_error :
    process_tool_filter (some "Nonexistent") none none none none none none
        (some false) none c2Registry = [("ToolA", c2GetInfo)] ∧
    [("ToolA", c2GetInfo)] ≠ c2Registry ∧
    dictLookup (displayNameMap c2Registry) (strLower "Nonexistent") = none := by decide

/-- Claim C2 (amended): an unresolvable name in the enabled or disabled
sources makes the internal validation fail with an error naming the
source list it came from; the error aborts the remaining filter steps but
is caught and logged rather than raised to the caller, and mutations
already applied remain observable: on an enabled-source failure the
function returns the registry exactly as the write gate left it; on a
disabled-source failure it returns the registry as the enabled-set step
left it (the write-gated registry when the enabled sources were empty,
the enabled-restricted registry otherwise). -/
theorem process_tool_filter_validation_failure
    (enabled_tools disabled_tools : Option String)
    (tool_categories : Option (List (String × List String)))
    (enabled_categories disabled_categories : Option String)
    (enabled_tools_regex disabled_tools_regex : Option (List (RegularExpression Char)))
    (allow_write : Option Bool) (filter_config : Option FilterConfig)
    (tool_registry : Registry) :
    (∀ msg : String,
      collect3 (ptfEnabledList filter_config enabled_tools)
          (ptfEnabledFromCategories tool_registry filter_config tool_categories
            enabled_categories)
          (ptfEnabledFromRegex tool_registry filter_config enabled_tools_regex
            allow_write)
          (displayNameMap tool_registry)
          "enabled_tools" "enabled_categories" "enabled_tools_regex" = .error msg →
      process_tool_filter enabled_tools disabled_tools tool_categories
          enabled_categories disabled_categories enabled_tools_regex
          disabled_tools_regex allow_write filter_config tool_registry =
        ptfGated tool_registry (ptfAllowWrite filter_config allow_write) ∧
      ∃ t src, src ∈ ["enabled_tools", "enabled_categories", "enabled_tools_regex"] ∧
        msg = "Tool " ++ t ++ " in " ++ src ++ " is not a valid tool name") ∧
    (∀ msg : String,
      ((ptfEnabledList filter_config enabled_tools).isEmpty &&
        (ptfEnabledFromCategories tool_registry filter_config tool_categories
          enabled_categories).isEmpty &&
        (ptfEnabledFromRegex tool_registry filter_config enabled_tools_regex
          allow_write).isEmpty) = true →
      collect3 (ptfDisabledList filter_config disabled_tools)
          (ptfDisabledFromCategories tool_registry filter_config tool_categories
            disabled_categories)
          (ptfDisabledFromRegex tool_registry filter_config disabled_tools_regex
            allow_write)
          (displayNameMap tool_registry)
          "disabled_tools" "disabled_categories" "disabled_tools_regex" = .error msg →
      process_tool_filter enabled_tools disabled_tools tool_categories
          enabled_categories disabled_categories enabled_tools_regex
          disabled_tools_regex allow_write filter_config tool_registry =
        ptfGated tool_registry (ptfAllowWrite filter_config allow_write) ∧
      ∃ t src, src ∈ ["disabled_tools", "disabled_categories", "disabled_tools_regex"] ∧
        msg = "Tool " ++ t ++ " in " ++ src ++ " is not a valid tool name") ∧
    (∀ (es : List String) (msg : String),
      ((ptfEnabledList filter_config enabled_tools).isEmpty &&
        (ptfEnabledFromCategories tool_registry filter_config tool_categories
          enabled_categories).isEmpty &&
        (ptfEnabledFromRegex tool_registry filter_config enabled_tools_regex
          allow_write).isEmpty) = false →
      collect3 (ptfEnabledList filter_config enabled_tools)
          (ptfEnabledFromCategories tool_registry filter_config tool_categories
            enabled_categories)
          (ptfEnabledFromRegex tool_registry filter_config enabled_tools_regex
            allow_write)
          (displayNameMap tool_registry)
          "enabled_tools" "enabled_categories" "enabled_tools_regex" = .ok es →
      collect3 (ptfDisabledList filter_config disabled_tools)
          (ptfDisabledFromCategories tool_registry filter_config tool_categories
            disabled_categories)
          (ptfDisabledFromRegex tool_registry filter_config disabled_tools_regex
            allow_write)
          (displayNameMap tool_registry)
          "disabled_tools" "disabled_categories" "disabled_tools_regex" = .error msg →
      process_tool_filter enabled_tools disabled_tools tool_categories
          enabled_categories disabled_categories enabled_tools_regex
          disabled_tools_regex allow_write filter_config tool_registry =
        (ptfGated tool_registry (ptfAllowWrite filter_config allow_write)).filter
          (fun kv => es.contains (strLower kv.1)) ∧
      ∃ t src, src ∈ ["disabled_tools", "disabled_categories", "disabled_tools_regex"] ∧
        msg = "Tool " ++ t ++ " in " ++ src ++ " is not a valid tool name") := by
  refine ⟨?_, ?_, ?_⟩
  · intro msg herr
    have hne := collect3_error_nonempty herr
    constructor
    · simp only [process_tool_filter, hne, herr]
      simp
    · exact collect3_error_shape herr
  · intro msg hbE herrD
    constructor
    · simp only [process_tool_filter, hbE, if_true]
      exact ptfDisabledStep_error herrD
    · exact collect3_error_shape herrD
  · intro es msg hbE hok herrD
    constructor
    · simp only [process_tool_filter, hbE, Bool.false_eq_true, if_false, hok]
      exact ptfDisabledStep_error herrD
    · exact collect3_error_shape herrD

/-- Claim C2 (amended) witness: over the concrete two-tool registry — an
unresolvable enabled name leaves the write-gated registry with an error
naming `enabled_tools`; an unresolvable disabled name with empty enabled
sources leaves the write-gated registry; an unresolvable disabled name
after a successful enabled restriction leaves the enabled-restricted
registry, the error naming `disabled_tools`. -/
theorem process_tool_filter_validation_failure_witness :
    (collect3 (ptfEnabledList none (some "Nonexistent"))
        (ptfEnabledFromCategories c2Registry none none none)
        (ptfEnabledFromRegex c2Registry none none (some false))
        (displayNameMap c2Registry)
        "enabled_tools" "enabled_categories" "enabled_tools_regex" =
      .error "Tool Nonexistent in enabled_tools is not a valid tool name") ∧
    (process_tool_filter (some "Nonexistent") none none none none none none
        (some false) none c2Registry =
      ptfGated c2Registry (ptfAllowWrite none (some false)) ∧
    ∃ t src, src ∈ ["enabled_tools", "enabled_categories", "enabled_tools_regex"] ∧
      "Tool Nonexistent in enabled_tools is not a valid tool name" =
        "Tool " ++ t ++ " in " ++ src ++ " is not a valid tool name") ∧
    (((ptfEnabledList none none).isEmpty &&
        (ptfEnabledFromCategories c2Registry none none none).isEmpty &&
        (ptfEnabledFromRegex c2Registry none none (some false)).isEmpty) = true) ∧
    (collect3 (ptfDisabledList none (some "Ghost"))
        (ptfDisabledFromCategories c2Registry none none none)
        (ptfDisabledFromRegex c2Registry none none (some false))
        (displayNameMap c2Registry)
        "disabled_tools" "disabled_categories" "disabled_tools_regex" =
      .error "Tool Ghost in disabled_tools is not a valid tool name") ∧
    (process_tool_filter none (some "Ghost") none none none none none
        (some false) none c2Registry =
      ptfGated c2Registry (ptfAllowWrite none (some false)) ∧
    ∃ t src, src ∈ ["disabled_tools", "disabled_categories", "disabled_tools_regex"] ∧
      "Tool Ghost in disabled_tools is not a valid tool name" =
        "Tool " ++ t ++ " in " ++ src ++ " is not a valid tool name") ∧
    (collect3 (ptfEnabledList none (some "ToolA"))
        (ptfEnabledFromCategories c2Registry none none none)
        (ptfEnabledFromRegex c2Registry none none (some false))
        (displayNameMap c2Registry)
        "enabled_tools" "enabled_categories" "enabled_tools_regex" = .ok ["toola"]) ∧
    (process_tool_filter (some "ToolA") (some "Ghost") none none none none none
        (some false) none c2Registry =
      (ptfGated c2Registry (ptfAllowWrite none (some false))).filter
        (fun kv => List.contains ["toola"] (strLower kv.1)) ∧
    ∃ t src, src ∈ ["disabled_tools", "disabled_categories", "disabled_tools_regex"] ∧
      "Tool Ghost in disabled_tools is not a valid tool name" =
        "Tool " ++ t ++ " in " ++ src ++ " is not a valid tool name") :=
  ⟨by decide,
   (process_tool_filter_validation_failure (some "Nonexistent") none none none
       none none none (some false) none c2Registry).1 _ (by decide),
   by decide, by decide,
   (process_tool_filter_validation_failure none (some "Ghost") none none
       none none none (some false) none c2Registry).2.1 _ (by decide) (by decide),
   by decide,
   (process_tool_filter_validation_failure (some "ToolA") (some "Ghost") none none
       none none none (some false) none c2Registry).2.2 ["toola"] _
     (by decide) (by decide) (by decide)⟩

/-- Membership in the disabled-set application step: a no-op when all
three disabled sources are empty, otherwise removal of exactly the tools
whose lowercased identifier lies in the successfully resolved disabled
set. -/
theorem ptfDisabledStep_mem {dList dFromCats dFromRe : List String}
    {dmap : List (String × String)} {reg : Registry} {ds : List String}
    (hD : collect3 dList dFromCats dFromRe dmap
        "disabled_tools" "disabled_categories" "disabled_tools_regex" = .ok ds)
    (kv : String × ToolInfo) :
    kv ∈ ptfDisabledStep dList dFromCats dFromRe dmap reg ↔
      kv ∈ reg ∧ ((dList.isEmpty && dFromCats.isEmpty && dFromRe.isEmpty) = true ∨
        ds.contains (strLower kv.1) = false) := by
  rw [ptfDisabledStep]
  cases hb : (dList.isEmpty && dFromCats.isEmpty && dFromRe.isEmpty) with
  | true => simp [hb]
  | false =>
    simp only [hb, Bool.false_eq_true, if_false, hD]
    simp [List.mem_filter]

/-- Claim C6: every regex pattern is matched case-insensitively (both the
pattern's literal characters and the name are case-folded) and anchored at
the start of the name (the test succeeds exactly when some prefix of the
name lies in the pattern's language); each match contributes that display
name to the corresponding name set; the names the patterns see are exactly
the display names of the registry after the write gate — the regex inputs
of `process_tool_filter` are computed from the gated registry, which for a
non-truthy gate value is the write-filtered registry, so names removed by
the write gate are invisible to the patterns. -/
theorem regex_expansion_matches_post_gate_display_names :
    (∀ (pats : List (RegularExpression Char)) (names : List String) (n : String),
        n ∈ process_regex_patterns pats names ↔
          n ∈ names ∧ ∃ r ∈ pats, ∃ p, p <+: n.data.map Char.toLower ∧
            p ∈ (RegularExpression.map Char.toLower r).matches') ∧
    (∀ (reg : Registry) (n : String),
        n ∈ ptfNames (apply_write_filter reg) ↔
          ∃ kv, kv ∈ reg ∧ kv.2.http_methods.contains "GET" = true ∧
            kv.2.display_name = n) ∧
    (∀ (reg : Registry) (cfg : Option FilterConfig)
        (er : Option (List (RegularExpression Char))) (aw : Option Bool),
        ptfEnabledFromRegex reg cfg er aw =
          process_regex_patterns (ptfEnabledRegex cfg er)
            (ptfNames (ptfGated reg (ptfAllowWrite cfg aw))) ∧
        ptfDisabledFromRegex reg cfg
            (er : Option (List (RegularExpression Char))) aw =
          process_regex_patterns (ptfDisabledRegex cfg er)
            (ptfNames (ptfGated reg (ptfAllowWrite cfg aw)))) ∧
    (∀ reg : Registry, ptfGated reg (some false) = apply_write_filter reg ∧
        ptfGated reg none = apply_write_filter reg ∧
        ptfGated reg (some true) = reg) := by
  refine ⟨?_, ?_, fun reg cfg er aw => ⟨rfl, rfl⟩, fun reg => ?_⟩
  · intro pats names n
    simp only [process_regex_patterns, List.mem_flatMap, List.mem_filter, re_match,
      List.any_eq_true, List.mem_inits, RegularExpression.rmatch_iff_matches']
    constructor
    · rintro ⟨r, hr, hn, p, hp, hm⟩
      exact ⟨hn, r, hr, p, hp, hm⟩
    · rintro ⟨hn, r, hr, p, hp, hm⟩
      exact ⟨r, hr, hn, p, hp, hm⟩
  · intro reg n
    simp only [ptfNames, apply_write_filter, List.mem_map, List.mem_filter]
    constructor
    · rintro ⟨kv, ⟨hkv, hget⟩, hdn⟩
      exact ⟨kv, hkv, hget, hdn⟩
    · rintro ⟨kv, hkv, hget, hdn⟩
      exact ⟨kv, ⟨hkv, hget⟩, hdn⟩
  · exact ⟨by simp [ptfGated], by simp [ptfGated], by simp [ptfGated]⟩

/-- Claim C7: when all three enabled sources are empty the enabled-set
step leaves the (write-gated) registry unrestricted; otherwise exactly the
tools whose lowercased identifier lies in the resolved enabled union
survive it.  The disabled-set step runs afterwards and removes exactly the
tools whose lowercased identifier lies in the resolved disabled set, so a
tool present in both resolved sets is excluded from the result. -/
theorem process_tool_filter_enabled_disabled_sets
    (enabled_tools disabled_tools : Option String)
    (tool_categories : Option (List (String × List String)))
    (enabled_categories disabled_categories : Option String)
    (enabled_tools_regex disabled_tools_regex : Option (List (RegularExpression Char)))
    (allow_write : Option Bool) (filter_config : Option FilterConfig)
    (tool_registry : Registry) (es ds : List String)
    (hE : collect3 (ptfEnabledList filter_config enabled_tools)
        (ptfEnabledFromCategories tool_registry filter_config tool_categories
          enabled_categories)
        (ptfEnabledFromRegex tool_registry filter_config enabled_tools_regex allow_write)
        (displayNameMap tool_registry)
        "enabled_tools" "enabled_categories" "enabled_tools_regex" = .ok es)
    (hD : collect3 (ptfDisabledList filter_config disabled_tools)
        (ptfDisabledFromCategories tool_registry filter_config tool_categories
          disabled_categories)
        (ptfDisabledFromRegex tool_registry filter_config disabled_tools_regex allow_write)
        (displayNameMap tool_registry)
        "disabled_tools" "disabled_categories" "disabled_tools_regex" = .ok ds) :
    (∀ kv : String × ToolInfo,
      kv ∈ process_tool_filter enabled_tools disabled_tools tool_categories
          enabled_categories disabled_categories enabled_tools_regex
          disabled_tools_regex allow_write filter_config tool_registry ↔
        kv ∈ ptfGated tool_registry (ptfAllowWrite filter_config allow_write) ∧
        (((ptfEnabledList filter_config enabled_tools).isEmpty &&
            (ptfEnabledFromCategories tool_registry filter_config tool_categories
              enabled_categories).isEmpty &&
            (ptfEnabledFromRegex tool_registry filter_config enabled_tools_regex
              allow_write).isEmpty) = true ∨
          es.contains (strLower kv.1) = true) ∧
        (((ptfDisabledList filter_config disabled_tools).isEmpty &&
            (ptfDisabledFromCategories tool_registry filter_config tool_categories
              disabled_categories).isEmpty &&
            (ptfDisabledFromRegex tool_registry filter_config disabled_tools_regex
              allow_write).isEmpty) = true ∨
          ds.contains (strLower kv.1) = false)) ∧
    (∀ kv : String × ToolInfo,
      es.contains (strLower kv.1) = true → ds.contains (strLower kv.1) = true →
      (((ptfDisabledList filter_config disabled_tools).isEmpty &&
          (ptfDisabledFromCategories tool_registry filter_config tool_categories
            disabled_categories).isEmpty &&
          (ptfDisabledFromRegex tool_registry filter_config disabled_tools_regex
            allow_write).isEmpty) = false) →
      kv ∉ process_tool_filter enabled_tools disabled_tools tool_categories
          enabled_categories disabled_categories enabled_tools_regex
          disabled_tools_regex allow_write filter_config tool_registry) := by
  have hmain : ∀ kv : String × ToolInfo,
      kv ∈ process_tool_filter enabled_tools disabled_tools tool_categories
          enabled_categories disabled_categories enabled_tools_regex
          disabled_tools_regex allow_write filter_config tool_registry ↔
        kv ∈ ptfGated tool_registry (ptfAllowWrite filter_config allow_write) ∧
        (((ptfEnabledList filter_config enabled_tools).isEmpty &&
            (ptfEnabledFromCategories tool_registry filter_config tool_categories
              enabled_categories).isEmpty &&
            (ptfEnabledFromRegex tool_registry filter_config enabled_tools_regex
              allow_write).isEmpty) = true ∨
          es.contains (strLower kv.1) = true) ∧
        (((ptfDisabledList filter_config disabled_tools).isEmpty &&
            (ptfDisabledFromCategories tool_registry filter_config tool_categories
              disabled_categories).isEmpty &&
            (ptfDisabledFromRegex tool_registry filter_config disabled_tools_regex
              allow_write).isEmpty) = true ∨
          ds.contains (strLower kv.1) = false) := by
    intro kv
    rw [process_tool_filter]
    cases hbE : ((ptfEnabledList filter_config enabled_tools).isEmpty &&
        (ptfEnabledFromCategories tool_registry filter_config tool_categories
          enabled_categories).isEmpty &&
        (ptfEnabledFromRegex tool_registry filter_config enabled_tools_regex
          allow_write).isEmpty) with
    | true =>
      simp only [hbE, if_true]
      rw [ptfDisabledStep_mem hD kv]
      simp
    | false =>
      simp only [hbE, Bool.false_eq_true, if_false, hE]
      rw [ptfDisabledStep_mem hD kv]
      simp only [List.mem_filter, Bool.false_eq_true, false_or]
      constructor
      · rintro ⟨⟨hkv, hes⟩, hds⟩
        exact ⟨hkv, hes, hds⟩
      · rintro ⟨hkv, hes, hds⟩
        exact ⟨⟨hkv, hes⟩, hds⟩
  refine ⟨hmain, ?_⟩
  intro kv hes hds hdne hmem
  rcases (hmain kv).mp hmem with ⟨_, _, hd⟩
  rcases hd with hd | hd
  · rw [hdne] at hd; cases hd
  · rw [hds] at hd; cases hd

/-- Claim C7 witness: a two-tool registry with `ToolY` named in both the
enabled and the disabled list — both validations succeed and the tool in
both resolved sets is excluded from the result. -/
theorem process_tool_filter_enabled_disabled_sets_witness :
    collect3 (ptfEnabledList none (some "ToolX,ToolY"))
        (ptfEnabledFromCategories c7Registry none none none)
        (ptfEnabledFromRegex c7Registry none none (some true))
        (displayNameMap c7Registry)
        "enabled_tools" "enabled_categories" "enabled_tools_regex" =
      .ok ["toolx", "tooly"] ∧
    collect3 (ptfDisabledList none (some "ToolY"))
        (ptfDisabledFromCategories c7Registry none none none)
        (ptfDisabledFromRegex c7Registry none none (some true))
        (displayNameMap c7Registry)
        "disabled_tools" "disabled_categories" "disabled_tools_regex" =
      .ok ["tooly"] ∧
    ("ToolY", c7InfoY) ∉
      process_tool_filter (some "ToolX,ToolY") (some "ToolY") none none none none none
        (some true) none c7Registry :=
  ⟨by decide, by decide,
   (process_tool_filter_enabled_disabled_sets (some "ToolX,ToolY") (some "ToolY")
       none none none none none (some true) none c7Registry
       ["toolx", "tooly"] ["tooly"] (by decide) (by decide)).2
     ("ToolY", c7InfoY) (by decide) (by decide) (by decide)⟩
